import Mathlib

/-!
Verification of the AST-level Lambda comparison engine
(`compare_lambda_functions_ast.py`).

The pure core of the comparator is embedded in Lean:

* `get_set_diff` — the DiffEngine symmetric-difference primitive
  (`_compare_ast_analysis.get_set_diff`); Python `set`s of strings are
  modelled as `Finset String`, `sorted(list(...))` as `Finset.sort (· ≤ ·)`.
* `calculate_semantic_similarity` — the similarity scorer
  (`_calculate_semantic_similarity`); Python floats are modelled as `ℚ`
  (every arithmetic step involved is exact).
* `calculate_metrics` / `compare_metrics` — the metrics estimator.
* `get_significance` / `compare_configs` — field-level config diff.
* `get_requirements` / `compare_dependencies` — dependency extraction/diff.
* `extract_function_config` — config extraction with defaults.
* a small Python-AST datatype with the visitor's cyclomatic-complexity
  accumulation, and `analyze_ast` aggregating per-file results.
-/

namespace LambdaAST

/-- Result record of `get_set_diff` inside `_compare_ast_analysis`. -/
structure SetDiff where
  only_in_first : List String
  only_in_second : List String
  common : List String
  deriving Repr, DecidableEq

/-- Embedding of `get_set_diff(set1, set2)` from `_compare_ast_analysis`
(src/compare_lambda_functions_ast.py lines 284–290):
`only_in_first = sorted(list(set(set1) - set(set2)))`,
`only_in_second = sorted(list(set(set2) - set(set1)))`,
`common = sorted(list(set(set1) & set(set2)))`.
Python `set(·)` on a list is `List.toFinset`; `sorted(list(·))` on a set of
strings is `Finset.sort (· ≤ ·)`. -/
def get_set_diff (set1 set2 : List String) : SetDiff :=
  { only_in_first := (set1.toFinset \ set2.toFinset).sort (· ≤ ·)
    only_in_second := (set2.toFinset \ set1.toFinset).sort (· ≤ ·)
    common := (set1.toFinset ∩ set2.toFinset).sort (· ≤ ·) }

end LambdaAST

namespace LambdaAST

/-- Dataclass `ASTAnalysis` (src/compare_lambda_functions_ast.py lines 22–34).
Numeric fields are Python `int`s, modelled as `ℤ`. -/
structure ASTAnalysis where
  functions : List String
  classes : List String
  imports : List String
  decorators : List String
  cyclomatic_complexity : ℤ
  total_lines : ℤ
  total_statements : ℤ
  has_lambda_handler : Bool
  external_calls : List String
  variables_defined : List String
  deriving Repr, DecidableEq

/-- One collection-overlap sub-score of `_calculate_semantic_similarity`
(e.g. lines 315–318): `len(set(l1) & set(l2)) / max(len(l1), len(l2)) * 100`.
Python float division is exact here, so the score is modelled in `ℚ`. -/
def overlap_score (l1 l2 : List String) : ℚ :=
  ((l1.toFinset ∩ l2.toFinset).card : ℚ) / ((max l1.length l2.length : ℕ) : ℚ) * 100

/-- Complexity-closeness sub-score (lines 333–334):
`100 - min(50, abs(c1 - c2) * 5)`, integer arithmetic then used as a float. -/
def complexity_similarity (c1 c2 : ℤ) : ℚ :=
  ((100 - min 50 (|c1 - c2| * 5) : ℤ) : ℚ)

/-- Entry-point-agreement sub-score (lines 337–343):
100 if both have `lambda_handler`, 50 if neither does, 20 otherwise. -/
def handler_score (h1 h2 : Bool) : ℚ :=
  if h1 && h2 then 100 else if !h1 && !h2 then 50 else 20

/-- The `scores` list built by `_calculate_semantic_similarity`
(lines 312–343): a collection sub-score is appended only when **both**
collections are non-empty (Python truthiness of the two lists); the
complexity and handler sub-scores are always appended. -/
def similarity_scores (ast1 ast2 : ASTAnalysis) : List ℚ :=
  (if ast1.functions ≠ [] ∧ ast2.functions ≠ [] then
    [overlap_score ast1.functions ast2.functions] else []) ++
  (if ast1.imports ≠ [] ∧ ast2.imports ≠ [] then
    [overlap_score ast1.imports ast2.imports] else []) ++
  (if ast1.external_calls ≠ [] ∧ ast2.external_calls ≠ [] then
    [overlap_score ast1.external_calls ast2.external_calls] else []) ++
  [complexity_similarity ast1.cyclomatic_complexity ast2.cyclomatic_complexity,
   handler_score ast1.has_lambda_handler ast2.has_lambda_handler]

/-- Embedding of `_calculate_semantic_similarity` (lines 310–345):
`sum(scores) / len(scores) if scores else 0.0`. -/
def calculate_semantic_similarity (ast1 ast2 : ASTAnalysis) : ℚ :=
  if similarity_scores ast1 ast2 ≠ [] then
    (similarity_scores ast1 ast2).sum / ((similarity_scores ast1 ast2).length : ℚ)
  else 0

/-- The comparison record returned by `_compare_ast_analysis`
(lines 292–308) when both analyses are available. -/
structure ASTComparison where
  functions_diff : SetDiff
  classes_diff : SetDiff
  imports_diff : SetDiff
  decorators_diff : SetDiff
  external_calls_diff : SetDiff
  variables_diff : SetDiff
  complexity_function1 : ℤ
  complexity_function2 : ℤ
  complexity_difference : ℤ
  lines_diff : ℤ
  statements_diff : ℤ
  both_have_handler : Bool
  semantic_similarity_score : ℚ
  deriving Repr, DecidableEq

/-- Embedding of `_compare_ast_analysis` (lines 279–308). The
`{'status': 'incomplete', ...}` dictionary returned when either analysis is
missing is modelled as `none`. -/
def compare_ast_analysis : Option ASTAnalysis → Option ASTAnalysis → Option ASTComparison
  | some ast1, some ast2 => some
    { functions_diff := get_set_diff ast1.functions ast2.functions
      classes_diff := get_set_diff ast1.classes ast2.classes
      imports_diff := get_set_diff ast1.imports ast2.imports
      decorators_diff := get_set_diff ast1.decorators ast2.decorators
      external_calls_diff := get_set_diff ast1.external_calls ast2.external_calls
      variables_diff := get_set_diff ast1.variables_defined ast2.variables_defined
      complexity_function1 := ast1.cyclomatic_complexity
      complexity_function2 := ast2.cyclomatic_complexity
      complexity_difference := ast2.cyclomatic_complexity - ast1.cyclomatic_complexity
      lines_diff := ast2.total_lines - ast1.total_lines
      statements_diff := ast2.total_statements - ast1.total_statements
      both_have_handler := ast1.has_lambda_handler && ast2.has_lambda_handler
      semantic_similarity_score := calculate_semantic_similarity ast1 ast2 }
  | _, _ => none

/-- Dataclass `FunctionConfig` (lines 37–50). The Python `dict` of
environment variables is modelled as an association list compared
structurally. -/
structure FunctionConfig where
  name : String
  runtime : String
  memory : ℤ
  timeout : ℤ
  handler : String
  description : String
  environment_vars : List (String × String)
  layers : List String
  tracing_enabled : Bool
  ephemeral_storage : ℤ
  architecture : String
  deriving Repr, DecidableEq

/-- Dataclass `FunctionDependencies` (lines 53–59). -/
structure FunctionDependencies where
  python_version : String
  total_packages : ℕ
  packages : List String
  missing_packages : List String
  deriving Repr, DecidableEq

/-- Dataclass `FunctionMetrics` (lines 62–68); Python floats as `ℚ`. -/
structure FunctionMetrics where
  memory_efficiency : ℚ
  estimated_coldstart_time : ℚ
  code_complexity_score : ℚ
  dependency_count : ℕ
  deriving Repr, DecidableEq

/-- Embedding of `_calculate_metrics` (lines 481–495):
`memory_efficiency = min(100.0, memory / 3008.0 * 100)`,
`estimated_coldstart_time = 200.0 + total_packages * 10.0`,
`code_complexity_score = max(1.0, 1.0 + total_packages * 0.5)`. -/
def calculate_metrics (config : FunctionConfig) (deps : FunctionDependencies) :
    FunctionMetrics :=
  { memory_efficiency := min 100 ((config.memory : ℚ) / 3008 * 100)
    estimated_coldstart_time := 200 + (deps.total_packages : ℚ) * 10
    code_complexity_score := max 1 (1 + (deps.total_packages : ℚ) * (1/2))
    dependency_count := deps.total_packages }

/-- Result dictionary of `_compare_metrics` (lines 497–507). -/
structure MetricsComparison where
  coldstart_diff_ms : ℚ
  coldstart_faster : String
  memory_efficiency_diff : ℚ
  complexity_diff : ℚ
  deriving Repr, DecidableEq

/-- Embedding of `_compare_metrics` (lines 497–507):
`coldstart_diff = m2.estimated_coldstart_time - m1.estimated_coldstart_time`,
`'function1' if coldstart_diff > 0 else 'function2'`. -/
def compare_metrics (metrics1 metrics2 : FunctionMetrics) : MetricsComparison :=
  let coldstart_diff :=
    metrics2.estimated_coldstart_time - metrics1.estimated_coldstart_time
  { coldstart_diff_ms := |coldstart_diff|
    coldstart_faster := if coldstart_diff > 0 then "function1" else "function2"
    memory_efficiency_diff :=
      |metrics1.memory_efficiency - metrics2.memory_efficiency|
    complexity_diff :=
      |metrics1.code_complexity_score - metrics2.code_complexity_score| }

/-- Embedding of `_get_significance` (lines 434–442). -/
def get_significance (field : String) : String :=
  if field ∈ ["runtime", "memory", "timeout", "architecture"] then "CRITICAL"
  else if field ∈ ["handler", "layers", "tracing_enabled", "environment_vars",
                   "ephemeral_storage"] then "IMPORTANT"
  else "MINOR"

/-- A Python attribute value of a `FunctionConfig` field, for the
structural (`!=`) comparison in `_compare_configs`. -/
inductive ConfigValue where
  | str (s : String)
  | int (i : ℤ)
  | bool (b : Bool)
  | strList (l : List String)
  | strMap (m : List (String × String))
  deriving Repr, DecidableEq

/-- The fixed `fields` list of `_compare_configs` (lines 449–453), in source
order. -/
def config_fields : List String :=
  ["runtime", "memory", "timeout", "handler", "architecture",
   "tracing_enabled", "ephemeral_storage", "layers", "environment_vars",
   "description"]

/-- Value of `getattr(config, field)` for the fields enumerated by
`_compare_configs`. (The catch-all arm is never reached for a field of
`config_fields`.) -/
def config_value (c : FunctionConfig) : String → ConfigValue
  | "runtime" => .str c.runtime
  | "memory" => .int c.memory
  | "timeout" => .int c.timeout
  | "handler" => .str c.handler
  | "architecture" => .str c.architecture
  | "tracing_enabled" => .bool c.tracing_enabled
  | "ephemeral_storage" => .int c.ephemeral_storage
  | "layers" => .strList c.layers
  | "environment_vars" => .strMap c.environment_vars
  | "description" => .str c.description
  | _ => .str ""

/-- One entry of the list returned by `_compare_configs` (lines 458–463). -/
structure ConfigDiffEntry where
  field : String
  function1_value : ConfigValue
  function2_value : ConfigValue
  significance : String
  deriving Repr, DecidableEq

/-- Embedding of `_compare_configs` (lines 444–464): for each field in the fixed list, an
entry is appended exactly when the two values differ under `!=`. -/
def compare_configs (config1 config2 : FunctionConfig) : List ConfigDiffEntry :=
  config_fields.filterMap fun field =>
    let val1 := config_value config1 field
    let val2 := config_value config2 field
    if val1 ≠ val2 then
      some { field := field, function1_value := val1, function2_value := val2,
             significance := get_significance field }
    else none

/-- Model of Python `str.strip()`: drop whitespace characters from both
ends (written over the character list so that it evaluates by kernel
reduction). -/
def pyStrip (s : String) : String :=
  ⟨((s.data.dropWhile Char.isWhitespace).reverse.dropWhile
      Char.isWhitespace).reverse⟩

/-- Model of Python `line.startswith('#')`: the first character of the raw
line is `'#'`. -/
def startsWithHash (s : String) : Bool :=
  match s.data with
  | [] => false
  | c :: _ => c = '#'

/-- Embedding of `_get_requirements` (lines 414–432). The manifest is `none` when
`requirements.txt` does not exist, otherwise the file's lines (without the
trailing newline). The list comprehension keeps `line.strip()` for every
line whose strip is non-empty and that does not start with `'#'` (tested on
the raw line). -/
def get_requirements (manifest : Option (List String)) : FunctionDependencies :=
  let packages : List String :=
    match manifest with
    | none => []
    | some lines =>
      (lines.filter fun line => pyStrip line ≠ "" ∧ ¬ startsWithHash line).map
        pyStrip
  { python_version := "3.12"
    total_packages := packages.length
    packages := packages
    missing_packages := [] }

/-- Result dictionary of `_compare_dependencies` (lines 466–479). -/
structure DependencyComparison where
  total_difference : ℕ
  only_in_function1 : List String
  only_in_function2 : List String
  common : List String
  function1_count : ℕ
  function2_count : ℕ
  deriving Repr, DecidableEq

/-- Embedding of `_compare_dependencies` (lines 466–479). -/
def compare_dependencies (deps1 deps2 : FunctionDependencies) :
    DependencyComparison :=
  { total_difference := ((deps1.total_packages : ℤ) - deps2.total_packages).natAbs
    only_in_function1 :=
      (deps1.packages.toFinset \ deps2.packages.toFinset).sort (· ≤ ·)
    only_in_function2 :=
      (deps2.packages.toFinset \ deps1.packages.toFinset).sort (· ≤ ·)
    common := (deps1.packages.toFinset ∩ deps2.packages.toFinset).sort (· ≤ ·)
    function1_count := deps1.total_packages
    function2_count := deps2.total_packages }

/-- The `EphemeralStorage` property of a template resource: either a plain
value or a `{'Size': ...}` mapping (line 394–395 reads
`eph.get('Size', 512) if isinstance(eph, dict) else eph`). -/
inductive EphemeralSpec where
  | plain (i : ℤ)
  | dict (size : Option ℤ)
  deriving Repr, DecidableEq

/-- The `Properties` mapping of one template resource, restricted to the
keys that `_extract_function_config` reads (lines 383–397); `none` models an
absent key. `tracing` holds the raw `Tracing` string
(`props.get('Tracing', 'PassThrough') == 'Active'`). -/
structure ResourceProps where
  runtime : Option String
  memorySize : Option ℤ
  timeout : Option ℤ
  handler : Option String
  description : Option String
  environmentVariables : Option (List (String × String))
  layers : Option (List String)
  tracing : Option String
  ephemeralStorage : Option EphemeralSpec
  architectures : Option (List String)
  deriving Repr, DecidableEq

/-- One entry of the template's `Resources` mapping. -/
structure TemplateResource where
  type : String
  props : ResourceProps
  deriving Repr, DecidableEq

/-- A parsed SAM/CloudFormation template: its `Resources`, in iteration
order. -/
structure Template where
  resources : List TemplateResource
  deriving Repr, DecidableEq

/-- The three possible outcomes of reading `template.yml` in
`_load_template_config` (lines 351–361): the file is missing, it fails to
parse (any exception is swallowed), or it parses to a template. -/
inductive TemplateLoad where
  | missing
  | parseError
  | parsed (t : Template)
  deriving Repr, DecidableEq

/-- Embedding of `_load_template_config` (lines 351–361): returns `None` both when the
file does not exist and when loading raises. -/
def load_template_config : TemplateLoad → Option Template
  | .missing => none
  | .parseError => none
  | .parsed t => some t

/-- Embedding of `_extract_function_config` (lines 363–412): start from the defaults,
then overwrite from the first resource whose `Type` is
`AWS::Lambda::Function` or `AWS::Serverless::Function` (the loop `break`s
at the first match). -/
def extract_function_config (name : String) (template : Option Template) :
    FunctionConfig :=
  let base : FunctionConfig :=
    { name := name
      runtime := "unknown"
      memory := 128
      timeout := 3
      handler := "lambda_function.lambda_handler"
      description := ""
      environment_vars := []
      layers := []
      tracing_enabled := false
      ephemeral_storage := 512
      architecture := "x86_64" }
  match template with
  | none => base
  | some t =>
    match t.resources.find? fun r =>
        r.type = "AWS::Lambda::Function" ∨ r.type = "AWS::Serverless::Function" with
    | none => base
    | some r =>
      let props := r.props
      let eph : ℤ :=
        match props.ephemeralStorage with
        | none => 512
        | some (.plain i) => i
        | some (.dict s) => s.getD 512
      let archs := props.architectures.getD ["x86_64"]
      { name := name
        runtime := props.runtime.getD "unknown"
        memory := props.memorySize.getD 128
        timeout := props.timeout.getD 3
        handler := props.handler.getD "lambda_function.lambda_handler"
        description := props.description.getD ""
        environment_vars := props.environmentVariables.getD []
        layers := props.layers.getD []
        tracing_enabled := props.tracing.getD "PassThrough" = "Active"
        ephemeral_storage := eph
        architecture := archs.headD "x86_64" }

/-- Embedding of `ASTComparator.__init__` (lines 87–103): the constructor raises
`ValueError` if either function directory does not exist, before any
extraction or analysis happens (`compare()` runs only on a constructed
object). The filesystem facts are the two booleans. -/
def astComparator_init (func1_dir_exists func2_dir_exists : Bool) :
    Except String Unit :=
  if !func1_dir_exists then .error "Function 1 directory not found"
  else if !func2_dir_exists then .error "Function 2 directory not found"
  else .ok ()

/-- A decorator expression as classified by `visit_FunctionDef`
(lines 177–181): an `ast.Name` contributes its `id`, an `ast.Attribute`
its `attr`, anything else is ignored. -/
inductive Decorator where
  | name (id : String)
  | attribute (attr : String)
  | other
  deriving Repr, DecidableEq

/-- The callee of a call expression as classified by `visit_Call`
(lines 204–235). -/
inductive CallFunc where
  | attrOnName (base attr : String)
  | attrOnOther (attr : String)
  | plainName (id : String)
  | other
  deriving Repr, DecidableEq

/-- An assignment target as classified by `visit_Assign` (lines 237–241). -/
inductive AssignTarget where
  | name (id : String)
  | other
  deriving Repr, DecidableEq

/-- A Python AST node, restricted to the node kinds the analyzer
distinguishes; every other node only contributes its children to the
traversal, which the child lists model. Expressions that can nest further
relevant nodes (call arguments, assignment/return values) carry their
relevant subtrees as child lists. -/
inductive PyNode where
  | functionDef (name : String) (decorator_list : List Decorator)
      (body : List PyNode)
  | classDef (name : String) (body : List PyNode)
  | ifStmt (body : List PyNode) (orelse : List PyNode)
  | whileStmt (body : List PyNode) (orelse : List PyNode)
  | forStmt (body : List PyNode) (orelse : List PyNode)
  | tryStmt (body : List PyNode) (handlers : List PyNode)
      (orelse : List PyNode) (finalbody : List PyNode)
  | exceptHandler (body : List PyNode)
  | importStmt (names : List String)
  | importFrom (module : Option String)
  | callExpr (func : CallFunc) (args : List PyNode)
  | assign (targets : List AssignTarget) (value : List PyNode)
  | returnStmt (value : List PyNode)
  | passStmt

/-- The child nodes of a node, in source order — what `generic_visit`
visits and what `ast.walk` descends into. -/
def PyNode.children : PyNode → List PyNode
  | .functionDef _ _ body => body
  | .classDef _ body => body
  | .ifStmt body orelse => body ++ orelse
  | .whileStmt body orelse => body ++ orelse
  | .forStmt body orelse => body ++ orelse
  | .tryStmt body handlers orelse finalbody =>
      body ++ handlers ++ orelse ++ finalbody
  | .exceptHandler body => body
  | .importStmt _ => []
  | .importFrom _ => []
  | .callExpr _ args => args
  | .assign _ value => value
  | .returnStmt value => value
  | .passStmt => []

/-- Whether a node is one of the branch kinds counted for cyclomatic
complexity: `ast.If`, `ast.While`, `ast.For`, `ast.ExceptHandler`
(line 185). -/
def PyNode.isBranch : PyNode → Bool
  | .ifStmt _ _ => true
  | .whileStmt _ _ => true
  | .forStmt _ _ => true
  | .exceptHandler _ => true
  | _ => false

/-- Whether a node is counted by the statement counter (lines 248–250):
`ast.FunctionDef`, `ast.Assign`, `ast.Return`, `ast.If`. -/
def PyNode.isCountedStatement : PyNode → Bool
  | .functionDef _ _ _ => true
  | .assign _ _ => true
  | .returnStmt _ => true
  | .ifStmt _ _ => true
  | _ => false

end LambdaAST

namespace LambdaAST

mutual
/-- Number of branch nodes (`If`/`While`/`For`/`ExceptHandler`) in the
subtree rooted at a node, the node included — what the `ast.walk(node)`
loop at lines 184–186 adds to `cyclomatic_complexity` when `node` is a
function definition. -/
def branchCount : PyNode → ℕ
  | .functionDef _ _ body => branchCountList body
  | .classDef _ body => branchCountList body
  | .ifStmt body orelse => 1 + (branchCountList body + branchCountList orelse)
  | .whileStmt body orelse => 1 + (branchCountList body + branchCountList orelse)
  | .forStmt body orelse => 1 + (branchCountList body + branchCountList orelse)
  | .tryStmt body handlers orelse finalbody =>
      branchCountList body + branchCountList handlers +
        branchCountList orelse + branchCountList finalbody
  | .exceptHandler body => 1 + branchCountList body
  | .importStmt _ => 0
  | .importFrom _ => 0
  | .callExpr _ args => branchCountList args
  | .assign _ value => branchCountList value
  | .returnStmt value => branchCountList value
  | .passStmt => 0

/-- Function `branchCount` summed over a list of nodes. -/
def branchCountList : List PyNode → ℕ
  | [] => 0
  | n :: ns => branchCount n + branchCountList ns
end

mutual
/-- Number of counted statements (`FunctionDef`/`Assign`/`Return`/`If`)
in the subtree rooted at a node, the node included — the `ast.walk(tree)`
loop at lines 248–250. -/
def stmtCount : PyNode → ℕ
  | .functionDef _ _ body => 1 + stmtCountList body
  | .classDef _ body => stmtCountList body
  | .ifStmt body orelse => 1 + (stmtCountList body + stmtCountList orelse)
  | .whileStmt body orelse => stmtCountList body + stmtCountList orelse
  | .forStmt body orelse => stmtCountList body + stmtCountList orelse
  | .tryStmt body handlers orelse finalbody =>
      stmtCountList body + stmtCountList handlers +
        stmtCountList orelse + stmtCountList finalbody
  | .exceptHandler body => stmtCountList body
  | .importStmt _ => 0
  | .importFrom _ => 0
  | .callExpr _ args => stmtCountList args
  | .assign _ value => 1 + stmtCountList value
  | .returnStmt value => 1 + stmtCountList value
  | .passStmt => 0

/-- Function `stmtCount` summed over a list of nodes. -/
def stmtCountList : List PyNode → ℕ
  | [] => 0
  | n :: ns => stmtCount n + stmtCountList ns
end

/-- Builtin names excluded by `visit_Call` (`_BUILTINS`, lines 207–215). -/
def pyBuiltins : List String :=
  ["print", "len", "str", "int", "float", "list", "dict",
   "set", "tuple", "bool", "bytes", "isinstance", "issubclass",
   "type", "range", "enumerate", "zip", "map", "filter",
   "sorted", "reversed", "hasattr", "getattr", "setattr",
   "vars", "dir", "id", "hash", "repr", "open", "super",
   "staticmethod", "classmethod", "property", "next", "iter",
   "min", "max", "sum", "abs", "round", "any", "all"]

/-- Attribute names excluded by `visit_Call` (`_SKIP_ATTRS`,
lines 218–226). -/
def pySkipAttrs : List String :=
  ["append", "extend", "pop", "get", "items", "keys",
   "values", "update", "split", "join", "strip", "upper",
   "lower", "replace", "encode", "decode", "format",
   "read", "write", "close", "seek", "tell",
   "startswith", "endswith", "find", "count",
   "isoformat", "strftime", "strptime", "utcnow", "now",
   "dumps", "loads", "load", "dump"]

/-- Mutable state of one file's `ASTVisitor` run (lines 159–165 plus the
`nonlocal` `cyclomatic_complexity` and `has_lambda_handler`). The Python
`set` `external_calls` is a `Finset`. -/
structure VisitAcc where
  functions : List String
  classes : List String
  imports : List String
  decorators : List String
  external_calls : Finset String
  variables_defined : List String
  cyclomatic_complexity : ℕ
  has_lambda_handler : Bool
  deriving DecidableEq

/-- Update of `external_calls` performed by `visit_Call` (lines 204–235). -/
def recordCall (s : Finset String) : CallFunc → Finset String
  | .attrOnName base attr =>
      if attr ∉ pySkipAttrs then insert (base ++ "." ++ attr) s else s
  | .attrOnOther _ => s
  | .plainName id => if id ∉ pyBuiltins then insert id s else s
  | .other => s

/-- Names contributed by a decorator list (lines 177–181): an `ast.Name`
contributes its `id`, an `ast.Attribute` its `attr`. -/
def decoratorNames (decs : List Decorator) : List String :=
  decs.filterMap fun d =>
    match d with
    | .name id => some id
    | .attribute attr => some attr
    | .other => none

/-- Simple-name assignment targets (lines 238–240). -/
def assignNames (targets : List AssignTarget) : List String :=
  targets.filterMap fun t =>
    match t with
    | .name id => some id
    | .other => none

mutual
/-- One step of `ASTVisitor.visit` (lines 169–241): the handled node kinds
update the accumulator and then `generic_visit` recurses into the children;
unhandled kinds only recurse. `visit_FunctionDef` adds the number of branch
nodes in the whole subtree (`ast.walk(node)`, lines 184–186) to the
complexity before recursing, so branches under nested function definitions
are counted again for each enclosing definition. -/
def visitNode (acc : VisitAcc) : PyNode → VisitAcc
  | .functionDef name decs body =>
      visitList
        { acc with
          functions := acc.functions ++ [name]
          has_lambda_handler :=
            acc.has_lambda_handler || (name = "lambda_handler")
          decorators := acc.decorators ++ decoratorNames decs
          cyclomatic_complexity :=
            acc.cyclomatic_complexity + branchCountList body }
        body
  | .classDef name body =>
      visitList { acc with classes := acc.classes ++ [name] } body
  | .ifStmt body orelse => visitList (visitList acc body) orelse
  | .whileStmt body orelse => visitList (visitList acc body) orelse
  | .forStmt body orelse => visitList (visitList acc body) orelse
  | .tryStmt body handlers orelse finalbody =>
      visitList (visitList (visitList (visitList acc body) handlers) orelse)
        finalbody
  | .exceptHandler body => visitList acc body
  | .importStmt names =>
      { acc with imports := acc.imports ++ names }
  | .importFrom module =>
      { acc with imports :=
          match module with
          | some m => if m ≠ "" then acc.imports ++ [m] else acc.imports
          | none => acc.imports }
  | .callExpr func args =>
      visitList { acc with external_calls := recordCall acc.external_calls func }
        args
  | .assign targets value =>
      visitList
        { acc with
          variables_defined := acc.variables_defined ++ assignNames targets }
        value
  | .returnStmt value => visitList acc value
  | .passStmt => acc

/-- Function `visitNode` folded over a list of sibling nodes in order. -/
def visitList (acc : VisitAcc) : List PyNode → VisitAcc
  | [] => acc
  | n :: ns => visitList (visitNode acc n) ns
end

/-- State of the visitor before `visitor.visit(tree)` for one file:
empty collections, `cyclomatic_complexity = 1` (line 165), handler flag not
yet seen. -/
def initAcc : VisitAcc :=
  { functions := []
    classes := []
    imports := []
    decorators := []
    external_calls := ∅
    variables_defined := []
    cyclomatic_complexity := 1
    has_lambda_handler := false }

/-- One successfully read and parsed source file: the module body
(`ast.parse(code)`) and its line count (`len(code.split('\n'))`). -/
structure ParsedFile where
  module : List PyNode
  numLines : ℕ

/-- Aggregation of the per-file results into the returned `ASTAnalysis`
(lines 252–277): sequences are concatenated, `imports`, `decorators` and
`variables_defined` are deduplicated and sorted, the union of the per-file
call sets is sorted, and the numeric fields are summed. -/
def aggregate (parsed : List ParsedFile) : ASTAnalysis :=
  let accs := parsed.map fun f => visitList initAcc f.module
  { functions := (accs.map VisitAcc.functions).flatten
    classes := (accs.map VisitAcc.classes).flatten
    imports := ((accs.map VisitAcc.imports).flatten.toFinset).sort (· ≤ ·)
    decorators := ((accs.map VisitAcc.decorators).flatten.toFinset).sort (· ≤ ·)
    cyclomatic_complexity := ((accs.map VisitAcc.cyclomatic_complexity).sum : ℤ)
    total_lines := ((parsed.map ParsedFile.numLines).sum : ℤ)
    total_statements := ((parsed.map fun f => stmtCountList f.module).sum : ℤ)
    has_lambda_handler := accs.any VisitAcc.has_lambda_handler
    external_calls :=
      (accs.foldl (fun s (a : VisitAcc) => s ∪ a.external_calls) ∅).sort (· ≤ ·)
    variables_defined :=
      ((accs.map VisitAcc.variables_defined).flatten.toFinset).sort (· ≤ ·) }

/-- Embedding of `_analyze_ast` (lines 128–277). A file that raised
`SyntaxError` or `OSError` while being read or parsed is `none` (the
`except` clause at lines 262–264 logs and `continue`s past it); a parsed
file carries its module and line count. `_analyze_ast` returns `None` only
when the glob found no files at all (lines 135–136); otherwise it returns
the aggregation over the files that parsed — even when that set is empty. -/
def analyze_ast (files : List (Option ParsedFile)) : Option ASTAnalysis :=
  if files.isEmpty then none
  else some (aggregate files.reduceOption)

mutual
/-- Subtrees rooted at a function-definition node, anywhere in a tree, in
visit order; a nested definition occurs both as its own entry and inside
its enclosing definition's subtree. Used to state claim C5 in the spec's
vocabulary. -/
def functionDefSubtrees : PyNode → List PyNode
  | .functionDef name decs body =>
      .functionDef name decs body :: functionDefSubtreesList body
  | .classDef _ body => functionDefSubtreesList body
  | .ifStmt body orelse =>
      functionDefSubtreesList body ++ functionDefSubtreesList orelse
  | .whileStmt body orelse =>
      functionDefSubtreesList body ++ functionDefSubtreesList orelse
  | .forStmt body orelse =>
      functionDefSubtreesList body ++ functionDefSubtreesList orelse
  | .tryStmt body handlers orelse finalbody =>
      functionDefSubtreesList body ++ functionDefSubtreesList handlers ++
        functionDefSubtreesList orelse ++ functionDefSubtreesList finalbody
  | .exceptHandler body => functionDefSubtreesList body
  | .importStmt _ => []
  | .importFrom _ => []
  | .callExpr _ args => functionDefSubtreesList args
  | .assign _ value => functionDefSubtreesList value
  | .returnStmt value => functionDefSubtreesList value
  | .passStmt => []

/-- Function `functionDefSubtrees` over a list of sibling nodes. -/
def functionDefSubtreesList : List PyNode → List PyNode
  | [] => []
  | n :: ns => functionDefSubtrees n ++ functionDefSubtreesList ns
end

/-- Similarity score as claim C4 words it (for the refutation of C4): a
collection sub-score is excluded exactly when **both** inputs have an empty
collection for that dimension — so it is included when exactly one side is
empty, unlike the source, which requires both sides non-empty. -/
def claimed_similarity_scores (ast1 ast2 : ASTAnalysis) : List ℚ :=
  (if ast1.functions = [] ∧ ast2.functions = [] then [] else
    [overlap_score ast1.functions ast2.functions]) ++
  (if ast1.imports = [] ∧ ast2.imports = [] then [] else
    [overlap_score ast1.imports ast2.imports]) ++
  (if ast1.external_calls = [] ∧ ast2.external_calls = [] then [] else
    [overlap_score ast1.external_calls ast2.external_calls]) ++
  [complexity_similarity ast1.cyclomatic_complexity ast2.cyclomatic_complexity,
   handler_score ast1.has_lambda_handler ast2.has_lambda_handler]

/-- Mean of `claimed_similarity_scores` — the score claim C4 describes. -/
def claimed_semantic_similarity (ast1 ast2 : ASTAnalysis) : ℚ :=
  if claimed_similarity_scores ast1 ast2 ≠ [] then
    (claimed_similarity_scores ast1 ast2).sum /
      ((claimed_similarity_scores ast1 ast2).length : ℚ)
  else 0

end LambdaAST

namespace LambdaAST

/-- Complexity bookkeeping of the visitor: folding the visitor over a node
list adds, to the incoming complexity, one credit for every branch node
beneath every function-definition subtree occurring in the list. -/
theorem visitList_cc (acc : VisitAcc) (l : List PyNode) :
    (visitList acc l).cyclomatic_complexity =
      acc.cyclomatic_complexity +
        ((functionDefSubtreesList l).map branchCount).sum := by
  refine visitList.induct
    (fun acc n => (visitNode acc n).cyclomatic_complexity =
      acc.cyclomatic_complexity + ((functionDefSubtrees n).map branchCount).sum)
    (fun acc l => (visitList acc l).cyclomatic_complexity =
      acc.cyclomatic_complexity + ((functionDefSubtreesList l).map branchCount).sum)
    ?_ ?_ ?_ ?_ ?_ ?_ ?_ ?_ ?_ ?_ ?_ ?_ ?_ ?_ ?_ acc l
  all_goals
    intros
    simp_all [visitNode, visitList, functionDefSubtrees, functionDefSubtreesList,
      branchCount, List.map_append, List.sum_append]
  all_goals omega

/-- A list whose every element equals `c` sums to `length * c`. -/
theorem sum_const_of_all_eq (l : List ℚ) (c : ℚ) (h : ∀ x ∈ l, x = c) :
    l.sum = l.length * c := by
  induction l with
  | nil => simp
  | cons x xs ih =>
    have hx := h x (by simp)
    have hxs := ih fun y hy => h y (by simp [hy])
    subst hx
    simp [hxs]
    ring

/-- Mean of a non-empty list of rationals that all lie in `[0, 100]` lies
in `[0, 100]`. -/
theorem mean_bounds (l : List ℚ) (hne : l ≠ [])
    (h : ∀ x ∈ l, 0 ≤ x ∧ x ≤ 100) :
    0 ≤ l.sum / (l.length : ℚ) ∧ l.sum / (l.length : ℚ) ≤ 100 := by
  have hlen : (0 : ℚ) < (l.length : ℚ) := by
    have := List.length_pos.mpr hne
    exact_mod_cast this
  constructor
  · exact div_nonneg (List.sum_nonneg fun x hx => (h x hx).1) hlen.le
  · rw [div_le_iff hlen]
    have h2 := List.sum_le_card_nsmul l 100 fun x hx => (h x hx).2
    rw [nsmul_eq_mul] at h2
    linarith

/-- An overlap sub-score is non-negative. -/
theorem overlap_score_nonneg (l1 l2 : List String) : 0 ≤ overlap_score l1 l2 := by
  unfold overlap_score
  positivity

/-- An overlap sub-score is at most 100. -/
theorem overlap_score_le_100 (l1 l2 : List String) : overlap_score l1 l2 ≤ 100 := by
  unfold overlap_score
  rcases Nat.eq_zero_or_pos (max l1.length l2.length) with h | h
  · simp [h]
  · have hc : (l1.toFinset ∩ l2.toFinset).card ≤ max l1.length l2.length := by
      calc (l1.toFinset ∩ l2.toFinset).card
          ≤ l1.toFinset.card := Finset.card_le_card Finset.inter_subset_left
        _ ≤ l1.length := l1.toFinset_card_le
        _ ≤ max l1.length l2.length := le_max_left _ _
    have hq : ((l1.toFinset ∩ l2.toFinset).card : ℚ) ≤
        ((max l1.length l2.length : ℕ) : ℚ) := by exact_mod_cast hc
    have hpos : (0 : ℚ) < ((max l1.length l2.length : ℕ) : ℚ) := by
      exact_mod_cast h
    rw [div_mul_eq_mul_div, div_le_iff hpos]
    nlinarith

/-- An overlap sub-score of a non-empty duplicate-free collection against
itself is exactly 100. -/
theorem overlap_score_self (l : List String) (h : l ≠ []) (hn : l.Nodup) :
    overlap_score l l = 100 := by
  unfold overlap_score
  rw [Finset.inter_self, List.toFinset_card_of_nodup hn, max_self]
  have hpos : (0 : ℚ) < (l.length : ℚ) := by
    have := List.length_pos.mpr h
    exact_mod_cast this
  field_simp

/-- The complexity-closeness sub-score lies in `[50, 100] ⊆ [0, 100]`. -/
theorem complexity_similarity_bounds (c1 c2 : ℤ) :
    0 ≤ complexity_similarity c1 c2 ∧ complexity_similarity c1 c2 ≤ 100 := by
  unfold complexity_similarity
  have habs : 0 ≤ |c1 - c2| := abs_nonneg _
  have h1 : (0 : ℤ) ≤ 100 - min 50 (|c1 - c2| * 5) := by omega
  have h2 : (100 : ℤ) - min 50 (|c1 - c2| * 5) ≤ 100 := by omega
  constructor <;> exact_mod_cast ‹_›

/-- The entry-point sub-score is one of 100, 50, 20, hence in `[0, 100]`. -/
theorem handler_score_bounds (h1 h2 : Bool) :
    0 ≤ handler_score h1 h2 ∧ handler_score h1 h2 ≤ 100 := by
  unfold handler_score
  split_ifs <;> norm_num

/-- The `scores` list of the similarity calculation always holds the
complexity and entry-point sub-scores, so it has at least two entries. -/
theorem similarity_scores_length (ast1 ast2 : ASTAnalysis) :
    2 ≤ (similarity_scores ast1 ast2).length := by
  unfold similarity_scores
  split_ifs <;> simp

/-- The `scores` list is never empty. -/
theorem similarity_scores_ne_nil (ast1 ast2 : ASTAnalysis) :
    similarity_scores ast1 ast2 ≠ [] := by
  have h := similarity_scores_length ast1 ast2
  intro hc
  rw [hc] at h
  simp at h

/-- Every entry of the `scores` list lies in `[0, 100]`. -/
theorem similarity_scores_bounds (ast1 ast2 : ASTAnalysis) :
    ∀ x ∈ similarity_scores ast1 ast2, 0 ≤ x ∧ x ≤ 100 := by
  unfold similarity_scores
  refine List.forall_mem_append.mpr
    ⟨List.forall_mem_append.mpr ⟨List.forall_mem_append.mpr ⟨?_, ?_⟩, ?_⟩, ?_⟩
  · split_ifs <;> intro x hx <;> simp at hx <;> subst hx <;>
      exact ⟨overlap_score_nonneg _ _, overlap_score_le_100 _ _⟩
  · split_ifs <;> intro x hx <;> simp at hx <;> subst hx <;>
      exact ⟨overlap_score_nonneg _ _, overlap_score_le_100 _ _⟩
  · split_ifs <;> intro x hx <;> simp at hx <;> subst hx <;>
      exact ⟨overlap_score_nonneg _ _, overlap_score_le_100 _ _⟩
  · intro x hx
    simp only [List.mem_cons, List.mem_singleton, List.not_mem_nil,
      or_false] at hx
    rcases hx with rfl | rfl
    · exact complexity_similarity_bounds _ _
    · exact handler_score_bounds _ _

/-- Aggregating zero parsed files yields the all-empty summary. -/
theorem aggregate_nil :
    aggregate [] =
      { functions := [], classes := [], imports := [], decorators := []
        cyclomatic_complexity := 0, total_lines := 0, total_statements := 0
        has_lambda_handler := false, external_calls := []
        variables_defined := [] } := by
  simp [aggregate]

/-- The two `only_in` partitions of a self-diff are empty. -/
theorem get_set_diff_self (l : List String) :
    (get_set_diff l l).only_in_first = [] ∧
      (get_set_diff l l).only_in_second = [] := by
  constructor <;> simp [get_set_diff]

/-- C1: for every pair of input collections `(A, B)`, `get_set_diff`
partitions them exactly: `only_in_first` is the sorted listing of `A − B`,
`only_in_second` of `B − A`, `common` of `A ∩ B`; the three parts are
pairwise disjoint, their union reconstructs `A ∪ B` with nothing lost, and
swapping the arguments swaps `only_in_first` with `only_in_second` while
leaving `common` unchanged. -/
theorem C1_set_diff_partitions (A B : List String) :
    (∀ x, x ∈ (get_set_diff A B).only_in_first ↔ x ∈ A ∧ x ∉ B) ∧
    (∀ x, x ∈ (get_set_diff A B).only_in_second ↔ x ∈ B ∧ x ∉ A) ∧
    (∀ x, x ∈ (get_set_diff A B).common ↔ x ∈ A ∧ x ∈ B) ∧
    List.Sorted (· ≤ ·) (get_set_diff A B).only_in_first ∧
    List.Sorted (· ≤ ·) (get_set_diff A B).only_in_second ∧
    List.Sorted (· ≤ ·) (get_set_diff A B).common ∧
    (get_set_diff A B).only_in_first.toFinset ∩
      (get_set_diff A B).only_in_second.toFinset = ∅ ∧
    (get_set_diff A B).only_in_first.toFinset ∩
      (get_set_diff A B).common.toFinset = ∅ ∧
    (get_set_diff A B).only_in_second.toFinset ∩
      (get_set_diff A B).common.toFinset = ∅ ∧
    (get_set_diff A B).only_in_first.toFinset ∪
      (get_set_diff A B).only_in_second.toFinset ∪
      (get_set_diff A B).common.toFinset = A.toFinset ∪ B.toFinset ∧
    (get_set_diff B A).only_in_first = (get_set_diff A B).only_in_second ∧
    (get_set_diff B A).only_in_second = (get_set_diff A B).only_in_first ∧
    (get_set_diff B A).common = (get_set_diff A B).common := by
  refine ⟨?_, ?_, ?_, ?_, ?_, ?_, ?_, ?_, ?_, ?_, rfl, rfl, ?_⟩
  · intro x
    simp [get_set_diff, Finset.mem_sort, List.mem_toFinset]
  · intro x
    simp [get_set_diff, Finset.mem_sort, List.mem_toFinset]
  · intro x
    simp [get_set_diff, Finset.mem_sort, List.mem_toFinset]
  · simp only [get_set_diff]
    exact Finset.sort_sorted _ _
  · simp only [get_set_diff]
    exact Finset.sort_sorted _ _
  · simp only [get_set_diff]
    exact Finset.sort_sorted _ _
  · ext x
    simp [get_set_diff, Finset.sort_toFinset]
    tauto
  · ext x
    simp [get_set_diff, Finset.sort_toFinset]
    tauto
  · ext x
    simp [get_set_diff, Finset.sort_toFinset]
    tauto
  · ext x
    simp [get_set_diff, Finset.sort_toFinset, List.mem_toFinset]
    tauto
  · simp only [get_set_diff]
    rw [Finset.inter_comm]

/-- A structural summary with no functions, classes, imports, decorators,
calls or variables, complexity 1, one line, and no entry point — e.g. the
analysis of a file holding only a comment. -/
def noHandlerSummary : ASTAnalysis :=
  { functions := [], classes := [], imports := [], decorators := []
    cyclomatic_complexity := 1, total_lines := 1, total_statements := 0
    has_lambda_handler := false, external_calls := [], variables_defined := [] }

/-- A structural summary of a unit with one function named
`lambda_handler`, one import, no branches. -/
def handlerSummary : ASTAnalysis :=
  { functions := ["lambda_handler"], classes := [], imports := ["json"]
    decorators := [], cyclomatic_complexity := 1, total_lines := 2
    total_statements := 1, has_lambda_handler := true, external_calls := []
    variables_defined := [] }

/-- C2 is false as stated: `noHandlerSummary` compared against itself is a
pair of structurally identical summaries, yet the similarity score is 75,
not 100 — the entry-point sub-score contributes 50 when neither summary has
an entry point, even for identical inputs. -/
theorem C2_counterexample :
    calculate_semantic_similarity noHandlerSummary noHandlerSummary = 75 ∧
    calculate_semantic_similarity noHandlerSummary noHandlerSummary ≠ 100 := by
  have h : calculate_semantic_similarity noHandlerSummary noHandlerSummary
      = 75 := by
    norm_num [calculate_semantic_similarity, similarity_scores, overlap_score,
      complexity_similarity, handler_score, noHandlerSummary]
    decide
  rw [h]
  norm_num

/-- C2 (amended): for every pair of structurally identical summaries, every
structural diff partition's `only_in_first` and `only_in_second` lists are
empty; and the similarity score is exactly 100 provided the shared
entry-point flag is set and the functions, imports and external-call lists
are duplicate-free (when both lack the entry point the entry sub-score is
50, and a duplicated name makes an overlap sub-score fall below 100). -/
theorem C2_identical_summaries (a : ASTAnalysis)
    (hh : a.has_lambda_handler = true)
    (hf : a.functions.Nodup) (hi : a.imports.Nodup)
    (he : a.external_calls.Nodup) :
    calculate_semantic_similarity a a = 100 ∧
    ∀ c ∈ compare_ast_analysis (some a) (some a),
      c.functions_diff.only_in_first = [] ∧
      c.functions_diff.only_in_second = [] ∧
      c.classes_diff.only_in_first = [] ∧
      c.classes_diff.only_in_second = [] ∧
      c.imports_diff.only_in_first = [] ∧
      c.imports_diff.only_in_second = [] ∧
      c.decorators_diff.only_in_first = [] ∧
      c.decorators_diff.only_in_second = [] ∧
      c.external_calls_diff.only_in_first = [] ∧
      c.external_calls_diff.only_in_second = [] ∧
      c.variables_diff.only_in_first = [] ∧
      c.variables_diff.only_in_second = [] := by
  constructor
  · have key : ∀ x ∈ similarity_scores a a, x = 100 := by
      unfold similarity_scores
      refine List.forall_mem_append.mpr
        ⟨List.forall_mem_append.mpr
          ⟨List.forall_mem_append.mpr ⟨?_, ?_⟩, ?_⟩, ?_⟩
      · split_ifs with h
        · intro x hx
          simp at hx
          subst hx
          exact overlap_score_self _ h.1 hf
        · intro x hx
          simp at hx
      · split_ifs with h
        · intro x hx
          simp at hx
          subst hx
          exact overlap_score_self _ h.1 hi
        · intro x hx
          simp at hx
      · split_ifs with h
        · intro x hx
          simp at hx
          subst hx
          exact overlap_score_self _ h.1 he
        · intro x hx
          simp at hx
      · intro x hx
        simp only [List.mem_cons, List.mem_singleton, List.not_mem_nil,
          or_false] at hx
        rcases hx with rfl | rfl
        · simp [complexity_similarity]
        · simp [handler_score, hh]
    have hne := similarity_scores_ne_nil a a
    have hlen : ((similarity_scores a a).length : ℚ) ≠ 0 := by
      have h2 := similarity_scores_length a a
      have : (similarity_scores a a).length ≠ 0 := by omega
      exact_mod_cast this
    unfold calculate_semantic_similarity
    rw [if_pos hne, sum_const_of_all_eq _ 100 key]
    field_simp
  · intro c hc
    simp only [compare_ast_analysis, Option.mem_def, Option.some_inj] at hc
    subst hc
    refine ⟨?_, ?_, ?_, ?_, ?_, ?_, ?_, ?_, ?_, ?_, ?_, ?_⟩ <;>
      first
        | exact (get_set_diff_self _).1
        | exact (get_set_diff_self _).2

/-- Witness for C2 (amended) at a concrete identical pair with an entry
point: the score is 100 and the diff partitions are empty. -/
theorem C2_identical_summaries_witness :
    calculate_semantic_similarity handlerSummary handlerSummary = 100 ∧
    ∀ c ∈ compare_ast_analysis (some handlerSummary) (some handlerSummary),
      c.functions_diff.only_in_first = [] ∧
      c.functions_diff.only_in_second = [] ∧
      c.classes_diff.only_in_first = [] ∧
      c.classes_diff.only_in_second = [] ∧
      c.imports_diff.only_in_first = [] ∧
      c.imports_diff.only_in_second = [] ∧
      c.decorators_diff.only_in_first = [] ∧
      c.decorators_diff.only_in_second = [] ∧
      c.external_calls_diff.only_in_first = [] ∧
      c.external_calls_diff.only_in_second = [] ∧
      c.variables_diff.only_in_first = [] ∧
      c.variables_diff.only_in_second = [] :=
  C2_identical_summaries handlerSummary (by decide) (by decide) (by decide)
    (by decide)

/-- C3 is false as stated: a unit directory with exactly one source file
that fails to parse does not yield the "no summary available" sentinel —
`_analyze_ast` skips the bad file and falls through to return a populated
summary whose collections are all empty and whose counts are all zero. -/
theorem C3_counterexample :
    analyze_ast [none] ≠ none ∧
    analyze_ast [none] = some
      { functions := [], classes := [], imports := [], decorators := []
        cyclomatic_complexity := 0, total_lines := 0, total_statements := 0
        has_lambda_handler := false, external_calls := []
        variables_defined := [] } := by
  constructor
  · intro h
    simp [analyze_ast] at h
  · simp only [analyze_ast, List.isEmpty_cons, Bool.false_eq_true, if_false,
      List.reduceOption_cons_of_none, List.reduceOption_nil, Option.some_inj]
    exact aggregate_nil

/-- C3 (amended): source analysis skips any file that fails to parse or
cannot be read and continues with the remaining files (inserting a failing
file anywhere in a non-empty batch leaves the result unchanged); it returns
the "no summary available" sentinel exactly when zero source files are
found; when files are found but none of them parses, it returns a summary
with every collection empty and every count zero — not the sentinel. -/
theorem C3_skip_and_sentinel (files fs gs : List (Option ParsedFile))
    (h : fs ++ gs ≠ []) :
    (analyze_ast files = none ↔ files = []) ∧
    analyze_ast (fs ++ none :: gs) = analyze_ast (fs ++ gs) ∧
    (files ≠ [] → files.reduceOption = [] →
      analyze_ast files = some
        { functions := [], classes := [], imports := [], decorators := []
          cyclomatic_complexity := 0, total_lines := 0, total_statements := 0
          has_lambda_handler := false, external_calls := []
          variables_defined := [] }) := by
  refine ⟨?_, ?_, ?_⟩
  · unfold analyze_ast
    split_ifs with hemp
    · simp [List.isEmpty_iff] at hemp
      simp [hemp]
    · simp [List.isEmpty_iff] at hemp
      simp [hemp]
  · have h1 : (fs ++ none :: gs).isEmpty = false := by
      simp [List.isEmpty_iff]
    have h2 : (fs ++ gs).isEmpty = false := by
      simp [List.isEmpty_iff, h]
    unfold analyze_ast
    rw [h1, h2]
    simp [List.reduceOption_append, List.reduceOption_cons_of_none]
  · intro hne hred
    have h1 : files.isEmpty = false := by
      simp [List.isEmpty_iff, hne]
    unfold analyze_ast
    rw [h1, hred]
    simp only [Bool.false_eq_true, if_false, Option.some_inj]
    exact aggregate_nil

/-- Witness for C3 (amended) at a concrete batch: one failing file next to
one parsed file, and a batch made only of failing files. -/
theorem C3_skip_and_sentinel_witness :
    (analyze_ast ([] ++ [none]) = none ↔ ([] ++ [none] :
        List (Option ParsedFile)) = []) ∧
    analyze_ast ([] ++ none :: [none]) = analyze_ast ([] ++ [none]) ∧
    (([] ++ [none] : List (Option ParsedFile)) ≠ [] →
      ([] ++ [none] : List (Option ParsedFile)).reduceOption = [] →
      analyze_ast ([] ++ [none]) = some
        { functions := [], classes := [], imports := [], decorators := []
          cyclomatic_complexity := 0, total_lines := 0, total_statements := 0
          has_lambda_handler := false, external_calls := []
          variables_defined := [] }) :=
  C3_skip_and_sentinel ([] ++ [none]) [] [none] (by simp)

/-- A structural summary identical to `noHandlerSummary` except that it
declares one function `f` — the functions dimension is non-empty on exactly
one side when compared against `noHandlerSummary`. -/
def oneFunctionSummary : ASTAnalysis :=
  { functions := ["f"], classes := [], imports := [], decorators := []
    cyclomatic_complexity := 1, total_lines := 1, total_statements := 1
    has_lambda_handler := false, external_calls := [], variables_defined := [] }

/-- C4 is false as stated: when one side's functions list is non-empty and
the other side's is empty — so the two inputs do **not** both have an empty
collection — the claim makes the functions sub-score applicable (value 0,
giving mean 50), but the source drops any collection sub-score as soon as
**either** side is empty and returns 75. -/
theorem C4_counterexample :
    calculate_semantic_similarity oneFunctionSummary noHandlerSummary = 75 ∧
    claimed_semantic_similarity oneFunctionSummary noHandlerSummary = 50 ∧
    calculate_semantic_similarity oneFunctionSummary noHandlerSummary ≠
      claimed_semantic_similarity oneFunctionSummary noHandlerSummary := by
  have h1 : calculate_semantic_similarity oneFunctionSummary noHandlerSummary
      = 75 := by
    norm_num [calculate_semantic_similarity, similarity_scores, overlap_score,
      complexity_similarity, handler_score, oneFunctionSummary,
      noHandlerSummary]
    decide
  have h2 : claimed_semantic_similarity oneFunctionSummary noHandlerSummary
      = 50 := by
    norm_num [claimed_semantic_similarity, claimed_similarity_scores,
      overlap_score, complexity_similarity, handler_score, oneFunctionSummary,
      noHandlerSummary]
    decide
  rw [h1, h2]
  norm_num

/-- C4 (amended): for every pair of structural summaries the similarity
score is a rational in `[0, 100]`, equal to the arithmetic mean of the
applicable sub-scores, where a collection sub-score is applicable exactly
when **both** inputs have a non-empty collection for that dimension;
complexity closeness and entry-point agreement are always applicable, so at
least two sub-scores always apply and the zero-applicable fallback (score
0) is unreachable. -/
theorem C4_score_bounds (ast1 ast2 : ASTAnalysis) :
    0 ≤ calculate_semantic_similarity ast1 ast2 ∧
    calculate_semantic_similarity ast1 ast2 ≤ 100 ∧
    similarity_scores ast1 ast2 ≠ [] ∧
    2 ≤ (similarity_scores ast1 ast2).length ∧
    calculate_semantic_similarity ast1 ast2 =
      (similarity_scores ast1 ast2).sum /
        ((similarity_scores ast1 ast2).length : ℚ) := by
  have hne := similarity_scores_ne_nil ast1 ast2
  have hb := mean_bounds _ hne (similarity_scores_bounds ast1 ast2)
  unfold calculate_semantic_similarity
  rw [if_pos hne]
  exact ⟨hb.1, hb.2, hne, similarity_scores_length _ _, rfl⟩

/-- C5: for every successfully parsed source file, the cyclomatic
complexity recorded for it is 1 plus one increment for every conditional,
loop, or exception-handler node beneath every function-definition node (a
node beneath nested definitions is counted once per containing definition;
nodes outside any function definition are not counted). In particular a
file with one `if` and one `for` inside one function has complexity 3, and
so does a file whose single `if` sits in a function `g` nested inside `f`
(counted once for `g` and once for `f`). -/
theorem C5_cyclomatic_complexity (module : List PyNode) (numLines : ℕ) :
    (aggregate [⟨module, numLines⟩]).cyclomatic_complexity =
      1 + ((((functionDefSubtreesList module).map branchCount).sum : ℕ) : ℤ) ∧
    (visitList initAcc module).cyclomatic_complexity =
      1 + ((functionDefSubtreesList module).map branchCount).sum ∧
    (aggregate [⟨[.functionDef "f" []
        [.ifStmt [.passStmt] [], .forStmt [.passStmt] []]], 4⟩]
      ).cyclomatic_complexity = 3 ∧
    (aggregate [⟨[.functionDef "f" []
        [.functionDef "g" [] [.ifStmt [.passStmt] []]]], 3⟩]
      ).cyclomatic_complexity = 3 := by
  have hv := visitList_cc initAcc module
  have hinit : initAcc.cyclomatic_complexity = 1 := rfl
  refine ⟨?_, ?_, ?_, ?_⟩
  · simp only [aggregate, List.map_cons, List.map_nil, List.sum_cons,
      List.sum_nil, add_zero]
    rw [hv, hinit]
    push_cast
    ring
  · rw [hv, hinit]
  · decide
  · decide

/-- A deployment configuration that differs from the defaults only in its
memory size. -/
def cfg (m : ℤ) : FunctionConfig :=
  { name := "fn", runtime := "python3.12", memory := m, timeout := 3
    handler := "lambda_function.lambda_handler", description := ""
    environment_vars := [], layers := [], tracing_enabled := false
    ephemeral_storage := 512, architecture := "x86_64" }

/-- A dependency set with the given package specifiers. -/
def depsOf (ps : List String) : FunctionDependencies :=
  { python_version := "3.12", total_packages := ps.length, packages := ps
    missing_packages := [] }

/-- C6: for every configuration and dependency set the metrics computation
is a pure function with
`memory_efficiency = min(100, memory / 3008 * 100)` — monotonically
non-decreasing in memory, capped at 100, equal to 100 at memory 3008 and
to 50 at memory 1504 — `estimated cold-start = 200 + 10 * package_count`,
and `complexity_score = max(1, 1 + 0.5 * package_count)`. -/
theorem C6_metrics (config c1 c2 : FunctionConfig)
    (deps d : FunctionDependencies) (h : c1.memory ≤ c2.memory) :
    (calculate_metrics config deps).memory_efficiency =
      min 100 ((config.memory : ℚ) / 3008 * 100) ∧
    (calculate_metrics c1 d).memory_efficiency ≤
      (calculate_metrics c2 d).memory_efficiency ∧
    (calculate_metrics config deps).memory_efficiency ≤ 100 ∧
    (config.memory = 3008 →
      (calculate_metrics config deps).memory_efficiency = 100) ∧
    (config.memory = 1504 →
      (calculate_metrics config deps).memory_efficiency = 50) ∧
    (calculate_metrics config deps).estimated_coldstart_time =
      200 + 10 * (deps.total_packages : ℚ) ∧
    (calculate_metrics config deps).code_complexity_score =
      max 1 (1 + (1/2) * (deps.total_packages : ℚ)) := by
  have hm : (c1.memory : ℚ) ≤ (c2.memory : ℚ) := by exact_mod_cast h
  refine ⟨rfl, ?_, ?_, ?_, ?_, ?_, ?_⟩
  · simp only [calculate_metrics]
    gcongr
  · exact min_le_left _ _
  · intro hmem
    norm_num [calculate_metrics, hmem]
  · intro hmem
    norm_num [calculate_metrics, hmem]
  · simp [calculate_metrics]
    ring
  · simp [calculate_metrics]
    ring_nf

/-- Witness for C6 at concrete inputs: memory 1504 gives efficiency 50,
and efficiency is monotone from memory 128 to memory 256. -/
theorem C6_metrics_witness :
    (calculate_metrics (cfg 1504) (depsOf ["a", "b", "c"])).memory_efficiency
      = 50 ∧
    (calculate_metrics (cfg 128) (depsOf [])).memory_efficiency ≤
      (calculate_metrics (cfg 256) (depsOf [])).memory_efficiency := by
  have h := C6_metrics (cfg 1504) (cfg 128) (cfg 256) (depsOf ["a", "b", "c"])
    (depsOf []) (by norm_num [cfg])
  exact ⟨h.2.2.2.2.1 rfl, h.2.1⟩

/-- C7: field-diff significance is a deterministic total function on field
names: runtime, memory, timeout and architecture are critical; handler,
layers, tracing flag, environment variables and ephemeral storage are
important; every other field defaults to minor; every field maps to exactly
one of the three levels; and for each compared field a diff entry is
emitted exactly when the two values differ under structural equality, the
entry carrying the two values and the field's significance. -/
theorem C7_field_significance (c1 c2 : FunctionConfig) (f : String) :
    (get_significance "runtime" = "CRITICAL" ∧
     get_significance "memory" = "CRITICAL" ∧
     get_significance "timeout" = "CRITICAL" ∧
     get_significance "architecture" = "CRITICAL") ∧
    (get_significance "handler" = "IMPORTANT" ∧
     get_significance "layers" = "IMPORTANT" ∧
     get_significance "tracing_enabled" = "IMPORTANT" ∧
     get_significance "environment_vars" = "IMPORTANT" ∧
     get_significance "ephemeral_storage" = "IMPORTANT") ∧
    (f ∉ ["runtime", "memory", "timeout", "architecture"] →
      f ∉ ["handler", "layers", "tracing_enabled", "environment_vars",
           "ephemeral_storage"] →
      get_significance f = "MINOR") ∧
    (get_significance f = "CRITICAL" ∨ get_significance f = "IMPORTANT" ∨
      get_significance f = "MINOR") ∧
    (∀ e ∈ compare_configs c1 c2,
      e.significance = get_significance e.field ∧
      e.function1_value = config_value c1 e.field ∧
      e.function2_value = config_value c2 e.field ∧
      config_value c1 e.field ≠ config_value c2 e.field ∧
      e.field ∈ config_fields) ∧
    (∀ fld ∈ config_fields, config_value c1 fld ≠ config_value c2 fld →
      ∃ e2 ∈ compare_configs c1 c2, e2.field = fld) := by
  refine ⟨by decide, by decide, ?_, ?_, ?_, ?_⟩
  · intro h1 h2
    simp [get_significance, h1, h2]
  · unfold get_significance
    split_ifs <;> simp
  · intro e he
    simp only [compare_configs, List.mem_filterMap] at he
    obtain ⟨a, ha, hae⟩ := he
    split_ifs at hae with hcond
    · simp only [Option.some_inj] at hae
      subst hae
      exact ⟨rfl, rfl, rfl, hcond, ha⟩
  · intro fld hfld hne
    refine ⟨{ field := fld, function1_value := config_value c1 fld
              function2_value := config_value c2 fld
              significance := get_significance fld }, ?_, rfl⟩
    simp only [compare_configs, List.mem_filterMap]
    exact ⟨fld, hfld, by rw [if_pos hne]⟩

/-- Witness for C7 at concrete configurations differing only in memory
(128 vs 256): the single emitted diff is the `memory` field with
significance CRITICAL. -/
theorem C7_field_significance_witness :
    get_significance "memory" = "CRITICAL" ∧
    (∀ e ∈ compare_configs (cfg 128) (cfg 256),
      e.significance = get_significance e.field) ∧
    (∃ e2 ∈ compare_configs (cfg 128) (cfg 256), e2.field = "memory") := by
  have h := C7_field_significance (cfg 128) (cfg 256) "memory"
  refine ⟨h.1.2.1, fun e he => (h.2.2.2.2.1 e he).1, ?_⟩
  exact h.2.2.2.2.2 "memory" (by decide) (by decide)

/-- Mapping after filtering is the same as one `filterMap` pass — the shape
of the `_get_requirements` list comprehension. -/
theorem map_filter_eq_filterMap (p : String → Prop) [DecidablePred p]
    (f : String → String) (l : List String) :
    (l.filter fun a => p a).map f =
      l.filterMap fun a => if p a then some (f a) else none := by
  induction l with
  | nil => rfl
  | cons x xs ih =>
    by_cases hx : p x <;>
      simp [List.filter_cons, List.filterMap_cons, hx, ih]

/-- C8: dependency extraction returns, when the manifest is present,
exactly the stripped lines that are neither blank nor comment lines (a
leading `'#'` on the raw line), in order, plus their count; when the
manifest is absent it returns the empty set with count 0 (and no error —
the extraction is total); comparing an absent manifest against one with 3
(distinct) packages yields `total_difference = 3`, all 3 specifiers in
`only_in_function2` and an empty `only_in_function1`. -/
theorem C8_requirements (lines : List String) :
    get_requirements none =
      { python_version := "3.12", total_packages := 0, packages := []
        missing_packages := [] } ∧
    (get_requirements (some lines)).packages =
      lines.filterMap (fun line =>
        if pyStrip line ≠ "" ∧ ¬ startsWithHash line then some (pyStrip line)
        else none) ∧
    (get_requirements (some lines)).total_packages =
      (get_requirements (some lines)).packages.length ∧
    ((get_requirements (some lines)).packages.length = 3 →
      (get_requirements (some lines)).packages.Nodup →
      (compare_dependencies (get_requirements none)
          (get_requirements (some lines))).total_difference = 3 ∧
      (compare_dependencies (get_requirements none)
          (get_requirements (some lines))).only_in_function1 = [] ∧
      (compare_dependencies (get_requirements none)
          (get_requirements (some lines))).only_in_function2.length = 3 ∧
      (compare_dependencies (get_requirements none)
          (get_requirements (some lines))).only_in_function2.toFinset =
        (get_requirements (some lines)).packages.toFinset) := by
  refine ⟨rfl, ?_, rfl, ?_⟩
  · exact map_filter_eq_filterMap _ pyStrip lines
  · intro h3 hnd
    have ht : (get_requirements (some lines)).total_packages = 3 := h3
    have hempty : (get_requirements none).packages = [] := rfl
    refine ⟨?_, ?_, ?_, ?_⟩
    · show (((get_requirements none).total_packages : ℤ) -
          ((get_requirements (some lines)).total_packages : ℤ)).natAbs = 3
      rw [ht]
      decide
    · show ((get_requirements none).packages.toFinset \
          (get_requirements (some lines)).packages.toFinset).sort (· ≤ ·) = []
      rw [hempty]
      simp
    · show (((get_requirements (some lines)).packages.toFinset \
          (get_requirements none).packages.toFinset).sort (· ≤ ·)).length = 3
      rw [hempty]
      rw [List.toFinset_nil, Finset.sdiff_empty, Finset.length_sort,
        List.toFinset_card_of_nodup hnd, h3]
    · show (((get_requirements (some lines)).packages.toFinset \
          (get_requirements none).packages.toFinset).sort (· ≤ ·)).toFinset =
          (get_requirements (some lines)).packages.toFinset
      rw [hempty]
      rw [List.toFinset_nil, Finset.sdiff_empty, Finset.sort_toFinset]

/-- Witness for C8 at a concrete 3-package manifest against an absent
one. -/
theorem C8_requirements_witness :
    (compare_dependencies (get_requirements none)
        (get_requirements (some ["numpy", "requests",
          "boto3"]))).total_difference = 3 ∧
    (compare_dependencies (get_requirements none)
        (get_requirements (some ["numpy", "requests",
          "boto3"]))).only_in_function1 = [] := by
  have h := C8_requirements ["numpy", "requests", "boto3"]
  have hs := h.2.2.2 (by decide) (by decide)
  exact ⟨hs.1, hs.2.1⟩

/-- C9: a non-existent unit directory for either unit is the only hard
precondition failure — the constructor returns an error exactly when a
directory is missing, before any extraction runs — whereas a missing
deployment descriptor or a descriptor parse error is silently treated as
"no descriptor" and yields the all-defaults configuration (runtime
"unknown", memory 128, timeout 3, default handler, empty description and
environment, no layers, tracing off, ephemeral storage 512, architecture
x86_64) with no exception (the extraction is a total function). -/
theorem C9_precondition_and_defaults (e1 e2 : Bool) (name : String) :
    (astComparator_init e1 e2 = .ok () ↔ (e1 = true ∧ e2 = true)) ∧
    (e1 = false → astComparator_init e1 e2 =
      .error "Function 1 directory not found") ∧
    (e1 = true → e2 = false → astComparator_init e1 e2 =
      .error "Function 2 directory not found") ∧
    extract_function_config name (load_template_config .missing) =
      { name := name, runtime := "unknown", memory := 128, timeout := 3
        handler := "lambda_function.lambda_handler", description := ""
        environment_vars := [], layers := [], tracing_enabled := false
        ephemeral_storage := 512, architecture := "x86_64" } ∧
    extract_function_config name (load_template_config .parseError) =
      { name := name, runtime := "unknown", memory := 128, timeout := 3
        handler := "lambda_function.lambda_handler", description := ""
        environment_vars := [], layers := [], tracing_enabled := false
        ephemeral_storage := 512, architecture := "x86_64" } := by
  refine ⟨?_, ?_, ?_, rfl, rfl⟩
  · cases e1 <;> cases e2 <;> simp [astComparator_init]
  · intro h
    subst h
    simp [astComparator_init]
  · intro h1 h2
    subst h1
    subst h2
    simp [astComparator_init]

/-- Witness for C9: one missing directory is rejected, and a missing
descriptor yields the default configuration. -/
theorem C9_precondition_and_defaults_witness :
    astComparator_init false true =
      .error "Function 1 directory not found" ∧
    extract_function_config "fn" (load_template_config .missing) =
      { name := "fn", runtime := "unknown", memory := 128, timeout := 3
        handler := "lambda_function.lambda_handler", description := ""
        environment_vars := [], layers := [], tracing_enabled := false
        ephemeral_storage := 512, architecture := "x86_64" } :=
  ⟨(C9_precondition_and_defaults false true "fn").2.1 rfl,
   (C9_precondition_and_defaults false true "fn").2.2.2.1⟩

/-- C10: for every pair of metrics with equal estimated cold-start times
the comparison reports `coldstart_diff_ms = 0` and labels
`coldstart_faster` as `function2` — the strict `diff > 0` test attributes
ties to the second unit — and `function1` is reported as faster exactly
when its cold-start estimate is strictly smaller. -/
theorem C10_coldstart_tie (m1 m2 : FunctionMetrics)
    (h : m1.estimated_coldstart_time = m2.estimated_coldstart_time) :
    (compare_metrics m1 m2).coldstart_diff_ms = 0 ∧
    (compare_metrics m1 m2).coldstart_faster = "function2" ∧
    ∀ n1 n2 : FunctionMetrics,
      ((compare_metrics n1 n2).coldstart_faster = "function1" ↔
        n1.estimated_coldstart_time < n2.estimated_coldstart_time) := by
  refine ⟨?_, ?_, ?_⟩
  · show |m2.estimated_coldstart_time - m1.estimated_coldstart_time| = 0
    rw [h, sub_self, abs_zero]
  · show (if m2.estimated_coldstart_time - m1.estimated_coldstart_time > 0
        then "function1" else "function2") = "function2"
    rw [if_neg]
    rw [h, sub_self]
    exact lt_irrefl 0
  · intro n1 n2
    show (if n2.estimated_coldstart_time - n1.estimated_coldstart_time > 0
        then "function1" else "function2") = "function1" ↔ _
    split_ifs with hgt
    · exact iff_of_true rfl (by linarith)
    · exact iff_of_false (by decide) fun hc => hgt (by linarith)

/-- A concrete metrics record used to witness the cold-start tie-break. -/
def tieMetrics : FunctionMetrics :=
  { memory_efficiency := 100, estimated_coldstart_time := 210
    code_complexity_score := 2, dependency_count := 1 }

/-- Witness for C10 at equal concrete metrics: zero difference, tie goes to
the second unit. -/
theorem C10_coldstart_tie_witness :
    (compare_metrics tieMetrics tieMetrics).coldstart_diff_ms = 0 ∧
    (compare_metrics tieMetrics tieMetrics).coldstart_faster = "function2" :=
  ⟨(C10_coldstart_tie tieMetrics tieMetrics rfl).1,
   (C10_coldstart_tie tieMetrics tieMetrics rfl).2.1⟩

end LambdaAST
